import Mathlib

/-!
Verification development for the silverberg test harness
(`src/silverberg/test/test_against_db.py`), a Python module that exercises
a CQL (Cassandra) client's marshalling/unmarshalling against a live
database.  The harness's data flow is pure string/value manipulation and
is embedded shallowly below: the type table `cql3_types`, the query
builders `execute_insert` / `execute_select`, the dynamic test generation
`make_test_method`, the schema setup `set_up_cassandra`, and the
module-level initialisation gated on the CASSANDRA_ENDPOINT environment
variable.

The client library itself (`silverberg/client.py`) is not part of the
sources; the few facts needed about it (the consistency-level enumeration,
the codec registry's fail-fast behaviour on unsupported types) are
modelled from the spec and marked as such.
-/

namespace Silverberg

/-- A Python `datetime` value as used by the harness: year, month, day,
hour, minute, second, microsecond.  Only structural equality matters here. -/
structure PyDateTime where
  year : Nat
  month : Nat
  day : Nat
  hour : Nat
  minute : Nat
  second : Nat
  microsecond : Nat
deriving DecidableEq, Repr

/-- Scalar Python values appearing in the harness: `None`, strings,
integers, booleans, float literals (represented exactly by their decimal
literal digits: `float m s` stands for the literal m / 10^s), datetimes,
and UUIDs (as an abstract numeric identity). -/
inductive Scalar where
  | null : Scalar
  | str : String → Scalar
  | int : Int → Scalar
  | bool : Bool → Scalar
  | float : Int → Nat → Scalar
  | dt : PyDateTime → Scalar
  | uuid : Nat → Scalar
deriving DecidableEq, Repr

/-- Native Python values appearing in the harness: a scalar, or one of the
three collection shapes (list, dict, set).  Every collection the harness
builds holds scalars only, so collections of scalars suffice; list and set
literals are kept in their written element order. -/
inductive Value where
  | scalar : Scalar → Value
  | list : List Scalar → Value
  | map : List (Scalar × Scalar) → Value
  | set : List Scalar → Value
deriving DecidableEq, Repr

/-- Source lines 40-45: `_now_expected` truncates `_now` to millisecond
granularity by rebuilding the datetime with
`_now.microsecond / 1000 * 1000` (Python 2 integer division). -/
def now_expected (now : PyDateTime) : PyDateTime :=
  ⟨now.year, now.month, now.day, now.hour, now.minute, now.second,
   now.microsecond / 1000 * 1000⟩

/-- One entry of the `cql3_types` table: the value inserted, the value the
test expects to read back, and the `supported` flag (defaulting to true in
the source via `data.get` with default `True`). -/
structure TypeEntry where
  insert : Value
  expected : Value
  supported : Bool
deriving DecidableEq, Repr

/-- Source lines 49-149: the `cql3_types` table, parameterised by the
runtime values `_now = datetime.utcnow()` and `_uuid1 = uuid1()` that the
module computes at import time.  Entries are listed in source order;
`supported` is false exactly where the source says `'supported': False`. -/
def cql3_types (now : PyDateTime) (u1 : Nat) : List (String × TypeEntry) :=
  [ ("ascii", ⟨.scalar (.str "abcdefg"), .scalar (.str "abcdefg"), true⟩),
    ("bigint", ⟨.scalar (.int 9223372036854775805),
                .scalar (.int 9223372036854775805), true⟩),
    ("blob", ⟨.scalar (.str "6d796b657931"), .scalar (.str "mykey1"), true⟩),
    ("boolean", ⟨.scalar (.bool true), .scalar (.bool true), true⟩),
    ("counter", ⟨.scalar (.int 1), .scalar (.int 1), true⟩),
    ("decimal", ⟨.scalar (.float 1513623 6), .scalar (.float 1513623 6), false⟩),
    ("double", ⟨.scalar (.float 1513623614 9), .scalar (.float 1513623614 9), true⟩),
    ("float", ⟨.scalar (.float 13636460918 8), .scalar (.float 13636460918 8), true⟩),
    ("inet", ⟨.scalar (.str "152.12.14.1"), .scalar (.str "152.12.14.1"), false⟩),
    ("int", ⟨.scalar (.int 5), .scalar (.int 5), true⟩),
    ("list<int>", ⟨.list [.int 1, .int 1, .int 2, .int 2, .int 3, .int 3, .int 4, .int 4],
                   .list [.int 1, .int 1, .int 2, .int 2, .int 3, .int 3, .int 4, .int 4], true⟩),
    ("map<int, text>", ⟨.map [(.int 1, .str "whats"), (.int 2, .str "up")],
                        .map [(.int 1, .str "whats"), (.int 2, .str "up")], true⟩),
    ("set<int>", ⟨.set [.int 1, .int 2, .int 3, .int 4],
                  .set [.int 1, .int 2, .int 3, .int 4], true⟩),
    ("text", ⟨.scalar (.str "(づ｡◕‿‿◕｡)づ"), .scalar (.str "(づ｡◕‿‿◕｡)づ"), true⟩),
    ("timestamp", ⟨.scalar (.dt now), .scalar (.dt (now_expected now)), true⟩),
    ("uuid", ⟨.scalar (.uuid u1), .scalar (.uuid u1), true⟩),
    ("timeuuid", ⟨.scalar (.uuid u1), .scalar (.uuid u1), true⟩),
    ("varchar", ⟨.scalar (.str "(づ｡◕‿‿◕｡)づ"), .scalar (.str "(づ｡◕‿‿◕｡)づ"), true⟩),
    ("varint", ⟨.scalar (.int 15984362469), .scalar (.int 15984362469), true⟩) ]

/-- Source lines 152-157: `short_name` returns the part of a type name
before the first `<` (`cql_type.split('<', 1)[0]`), i.e. its characters
up to the first `<`. -/
def short_name (cql_type : String) : String :=
  ⟨cql_type.data.takeWhile (fun c => c != '<')⟩

/-- The keys of `cql3_types`, which do not depend on the runtime
parameters. -/
def cql3_type_keys : List String :=
  (cql3_types ⟨0, 0, 0, 0, 0, 0, 0⟩ 0).map Prod.fst

theorem cql3_types_keys_eq (now : PyDateTime) (u1 : Nat) :
    (cql3_types now u1).map Prod.fst = cql3_type_keys := rfl

/-- Modelled from the spec: `silverberg/client.py` (absent from the
sources) exports the consistency-level enumeration, "an enumeration
including at least ONE, QUORUM, ALL"; the harness imports and uses only
`ConsistencyLevel.ALL`. -/
inductive ConsistencyLevel where
  | ONE : ConsistencyLevel
  | QUORUM : ConsistencyLevel
  | ALL : ConsistencyLevel
deriving DecidableEq, Repr

/-- Modelled from the spec: the codec registry of `silverberg/client.py`
(absent from the sources).  "Two wire types are explicitly unsupported and
must fail fast at registry lookup rather than attempt a lossy encode:
arbitrary-precision decimal and IP-address strings"; encoding them "fails
with EncodeError before any network I/O occurs".  Other types encode (here
kept abstract as the identity on the native value). -/
def registry_encode (cql_type : String) (v : Value) : Except String Value :=
  if cql_type = "decimal" ∨ cql_type = "inet" then .error "EncodeError"
  else .ok v

/-- Python `str(x)` for the values the harness interpolates into query
text (the set elements, which are ints in the table). -/
def pyStr : Scalar → String
  | .int n => toString n
  | .bool b => if b then "True" else "False"
  | .str s => s
  | .null => "None"
  | _ => ""

/-- Iteration over a Python value, as `for x in value` would produce it
(only ever applied to the set value in the source). -/
def Value.elements : Value → List Scalar
  | .list xs => xs
  | .set xs => xs
  | .map kvs => kvs.map Prod.fst
  | .scalar s => [s]

/-- One call observed at the client boundary: the query text, the bound
parameter map, and the consistency level passed to `client.execute`. -/
structure ClientCall where
  query : String
  params : List (String × Value)
  consistency : ConsistencyLevel
deriving DecidableEq, Repr

/-- Source lines 204-225: `execute_insert(table_name, column_name, value,
primary_key)` builds `params = {"key": primary_key, "val": value}` and
then one of three query shapes: the counter column gets an increment-only
UPDATE, the set column gets its elements interpolated literally into the
query text (with the `val` entry popped from the params), and every other
column gets a plain INSERT binding `:val`; the call is always executed at
`ConsistencyLevel.ALL`. -/
def execute_insert (table_name column_name : String) (value : Value)
    (primary_key : Value) : ClientCall :=
  let params : List (String × Value) := [("key", primary_key), ("val", value)]
  if column_name = "counter_type" then
    ⟨"UPDATE " ++ table_name ++ " SET " ++ column_name ++ " = " ++
       column_name ++ " + :val WHERE test_key = :key;",
     params, .ALL⟩
  else if column_name = "set_type" then
    ⟨"INSERT INTO " ++ table_name ++ " (test_key, " ++ column_name ++
       ") values (:key, " ++
       ("\x7b" ++ String.intercalate ", " (value.elements.map pyStr) ++ "\x7d") ++
       ");",
     params.filter (fun p => p.1 ≠ "val"), .ALL⟩
  else
    ⟨"INSERT INTO " ++ table_name ++ " (test_key, " ++ column_name ++
       ") values (:key, :val);",
     params, .ALL⟩

/-- Source lines 228-237: `execute_select(table_name, column_name,
primary_key)` issues a SELECT for the column under the given primary key,
always at `ConsistencyLevel.ALL`. -/
def execute_select (table_name column_name : String)
    (primary_key : Value) : ClientCall :=
  ⟨"SELECT " ++ column_name ++ " FROM " ++ table_name ++
     " WHERE test_key=:key;",
   [("key", primary_key)], .ALL⟩

/-- A row of a ResultSet: a mapping from column name to value. -/
abbrev Row : Type := List (String × Value)

/-- One dynamically generated test method, reduced to its observable
content: its name, the table and column it targets, the value it inserts,
the insert and select calls it issues for a given primary key, and the
single-row ResultSet its final assertion demands. -/
structure TestMethod where
  test_case_name : String
  table_name : String
  column_name : String
  insert_value : Value
  asserted_result : List Row
deriving DecidableEq, Repr

/-- Source lines 267-289: `make_test_method(cql_type, data)` derives the
column name `<shortname>_type`, the test name `test_<shortname>`, routes
counter to table `test_counter` and everything else to table `test`, and
builds a test that inserts `data["insert"]`, selects the column back, and
asserts the result equals `[{column_name: data["expected"]}]`. -/
def make_test_method (cql_type : String) (data : TypeEntry) : TestMethod :=
  let shortname := short_name cql_type
  let column_name := shortname ++ "_type"
  let test_case_name := "test_" ++ shortname
  let table_name := if cql_type = "counter" then "test_counter" else "test"
  ⟨test_case_name, table_name, column_name, data.insert,
   [[(column_name, data.expected)]]⟩

/-- The insert call a generated test issues for a given primary key. -/
def TestMethod.insert_call (t : TestMethod) (primary_key : Value) : ClientCall :=
  execute_insert t.table_name t.column_name t.insert_value primary_key

/-- The select call a generated test issues for a given primary key. -/
def TestMethod.select_call (t : TestMethod) (primary_key : Value) : ClientCall :=
  execute_select t.table_name t.column_name primary_key

/-- Source lines 292-296: the module-level loop adds a test method for
every entry of `cql3_types` whose `supported` flag is not `False`
(`data.get('supported', True)`). -/
def generated_tests (now : PyDateTime) (u1 : Nat) : List TestMethod :=
  ((cql3_types now u1).filter (fun p => p.2.supported)).map
    (fun p => make_test_method p.1 p.2)

/-- Source lines 254-264: `UnmarshallingTestCase.test_none` inserts `None`
into the `ascii_type` column of table `test`, selects it back, and asserts
the result equals `[{"ascii_type": None}]`. -/
def test_none : TestMethod :=
  ⟨"test_none", "test", "ascii_type", .scalar .null,
   [[("ascii_type", .scalar .null)]]⟩

/-- Source lines 179-184: the column definition strings of the CREATE
TABLE statement for table `test`: the primary key followed by
`'{1}_type {0}'.format(k, short_name(k))` for every key of `cql3_types`
except `counter`. -/
def test_table_column_defs : List String :=
  "test_key timestamp PRIMARY KEY" ::
    ((cql3_type_keys.filter (fun k => k ≠ "counter")).map
      (fun k => short_name k ++ "_type " ++ k))

/-- The column names of table `test`, read off the definition strings. -/
def test_table_columns : List String :=
  "test_key" ::
    ((cql3_type_keys.filter (fun k => k ≠ "counter")).map
      (fun k => short_name k ++ "_type"))

/-- Source lines 188-190: table `test_counter` holds exactly the primary
key `test_key int` and the single counter column `counter_type counter`. -/
def test_counter_table_column_defs : List String :=
  ["test_key int PRIMARY KEY", "counter_type counter"]

/-- The column names of table `test_counter`. -/
def test_counter_table_columns : List String := ["test_key", "counter_type"]

/-- The test client returned by `set_up_cassandra`: a
`TestingCQLClient(clientFromString(reactor, 'tcp:host:port'), ks)` — kept
as the connection string pieces and keyspace it is built from. -/
structure TestClient where
  host : String
  port : String
  keyspace : String
deriving DecidableEq, Repr

/-- Source lines 160-195: `set_up_cassandra(endpoint, ks)` splits the
endpoint on `:`, (re)creates the keyspace, creates table `test` with one
column per `cql3_types` key except counter, creates table `test_counter`,
and returns a `TestingCQLClient` for that host, port and keyspace. -/
def set_up_cassandra (endpoint : String) (ks : String) : TestClient :=
  let host := ((endpoint.splitOn ":").headD "")
  let port := ((endpoint.splitOn ":").getD 1 "")
  ⟨host, port, ks⟩

/-- The module state established at import time: the optional shared
client and the optional `skip` attribute set on `UnmarshallingTestCase`. -/
structure ModuleState where
  client : Option TestClient
  skip : Option String
deriving DecidableEq, Repr

/-- Source lines 198-201 and 299-300: `_endpoint =
os.getenv('CASSANDRA_ENDPOINT')`; `client = None`, and only `if
_endpoint:` (Python truthiness: a present, non-empty string) is
`set_up_cassandra(_endpoint)` run — once — to build the single shared
client; `if not _endpoint:` the class attribute
`UnmarshallingTestCase.skip` is set, which marks every test method of the
class skipped. -/
def module_init (env_endpoint : Option String) : ModuleState :=
  match env_endpoint with
  | some e =>
      if e ≠ "" then ⟨some (set_up_cassandra e "test_marshalling"), none⟩
      else ⟨none, some "No Cassandra endpoint provided."⟩
  | none => ⟨none, some "No Cassandra endpoint provided."⟩

/-- The numeric value of one lowercase/uppercase hex digit. -/
def hexDigitVal (c : Char) : Nat :=
  if '0' ≤ c ∧ c ≤ '9' then c.toNat - 48
  else if 'a' ≤ c ∧ c ≤ 'f' then c.toNat - 87
  else if 'A' ≤ c ∧ c ≤ 'F' then c.toNat - 55
  else 0

/-- Decode consecutive pairs of hex digits into characters. -/
def hexDecodeChars : List Char → List Char
  | c1 :: c2 :: rest =>
      Char.ofNat (16 * hexDigitVal c1 + hexDigitVal c2) :: hexDecodeChars rest
  | _ => []

/-- Hex-decode a string of hex digit pairs into the raw byte string it
denotes (how a blob literal "expressed as hexadecimal" names its bytes). -/
def hex_decode (s : String) : String := ⟨hexDecodeChars s.data⟩

/-- C1: the claim as stated is false on the table.  At any concrete value
of the runtime parameters, the `blob` entry is supported and is not the
`timestamp` entry, yet its expected read-back value (`'mykey1'`) differs
from its inserted value (the hex string `'6d796b657931'`): the clause
"expected equals the inserted value for every such type except timestamp"
fails at `blob`. -/
theorem C1_counterexample :
    ¬ (∀ p ∈ cql3_types ⟨2020, 1, 1, 0, 0, 0, 0⟩ 0, p.2.supported = true →
        p.1 ≠ "timestamp" → p.2.expected = p.2.insert) := by
  decide

/-- C1 (amended): for every entry of the type table not marked
unsupported, the generated test asserts that inserting the entry's native
value and selecting it back yields exactly the single-row ResultSet
mapping `<shortname>_type` to the entry's expected value, and the expected
value equals the inserted value for every such type except `timestamp`
(truncated to milliseconds) and `blob` (hex string decoded to bytes). -/
theorem C1_round_trip (now : PyDateTime) (u1 : Nat) :
    ∀ p ∈ cql3_types now u1, p.2.supported = true →
      (make_test_method p.1 p.2).asserted_result =
        [[(short_name p.1 ++ "_type", p.2.expected)]] ∧
      (p.1 ≠ "timestamp" → p.1 ≠ "blob" → p.2.expected = p.2.insert) := by
  intro p hp hsupp
  fin_cases hp <;>
    first
      | exact ⟨rfl, fun _ _ => rfl⟩
      | exact ⟨rfl, fun h _ => absurd rfl h⟩
      | exact ⟨rfl, fun _ h => absurd rfl h⟩

/-- Witness for C1 (amended) at the `int` entry. -/
theorem C1_round_trip_witness :
    (make_test_method "int"
        ⟨Value.scalar (.int 5), Value.scalar (.int 5), true⟩).asserted_result =
      [[("int_type", Value.scalar (.int 5))]] ∧
    (Value.scalar (Scalar.int 5) : Value) = Value.scalar (.int 5) := by
  have h := C1_round_trip ⟨2020, 1, 1, 0, 0, 0, 0⟩ 0
    ("int", ⟨Value.scalar (.int 5), Value.scalar (.int 5), true⟩)
    (by decide) rfl
  exact ⟨h.1, h.2 (by decide) (by decide)⟩

/-- C2: the expected timestamp read-back recorded in the table is the
inserted datetime rebuilt with its microsecond field replaced by
`microsecond / 1000 * 1000` (integer division): truncated downward to
whole milliseconds, never rounded up (the truncated value is at most the
original, and differs from it by less than 1000 microseconds); at the
concrete input `.123456` the read-back carries `.123000`. -/
theorem C2_timestamp_truncation (now : PyDateTime) (u1 : Nat) :
    (cql3_types now u1).lookup "timestamp" =
      some ⟨Value.scalar (.dt now), Value.scalar (.dt (now_expected now)), true⟩ ∧
    now_expected now = ⟨now.year, now.month, now.day, now.hour, now.minute,
      now.second, now.microsecond / 1000 * 1000⟩ ∧
    (now_expected now).microsecond ≤ now.microsecond ∧
    now.microsecond - (now_expected now).microsecond < 1000 ∧
    now_expected ⟨2020, 1, 1, 0, 0, 0, 123456⟩ = ⟨2020, 1, 1, 0, 0, 0, 123000⟩ := by
  refine ⟨rfl, rfl, Nat.div_mul_le_self _ _, ?_, rfl⟩
  have h1 := Nat.div_add_mod now.microsecond 1000
  have h2 := Nat.mod_lt now.microsecond (show 0 < 1000 by norm_num)
  simp only [now_expected]
  omega

/-- C3: `test_none` inserts the null marker into the `ascii_type` column
of table `test` through the ordinary INSERT path, and its assertion
demands a single-row ResultSet in which the column name `ascii_type` is
present and mapped to the null marker (looking the key up in the asserted
row yields the null marker, not absence). -/
theorem C3_null_law :
    test_none.asserted_result = [[("ascii_type", Value.scalar .null)]] ∧
    (test_none.asserted_result.headD []).lookup "ascii_type" =
      some (Value.scalar .null) ∧
    (∀ pk, test_none.insert_call pk =
      execute_insert "test" "ascii_type" (Value.scalar .null) pk) ∧
    (∀ pk, (test_none.insert_call pk).query =
      "INSERT INTO test (test_key, ascii_type) values (:key, :val);") := by
  exact ⟨rfl, rfl, fun pk => rfl, fun pk => rfl⟩

/-- C4: encoding any value for the `decimal` or `inet` wire types fails
with EncodeError at the registry (modelled from the spec, the client
sources being absent), both entries are marked unsupported in the type
table, and the module-level generation loop skips them, so no generated
test ever inserts into a `decimal_type` or `inet_type` column. -/
theorem C4_unsupported_fail_fast (now : PyDateTime) (u1 : Nat) :
    (∀ v, registry_encode "decimal" v = .error "EncodeError") ∧
    (∀ v, registry_encode "inet" v = .error "EncodeError") ∧
    (cql3_types now u1).lookup "decimal" =
      some ⟨Value.scalar (.float 1513623 6), Value.scalar (.float 1513623 6), false⟩ ∧
    (cql3_types now u1).lookup "inet" =
      some ⟨Value.scalar (.str "152.12.14.1"), Value.scalar (.str "152.12.14.1"), false⟩ ∧
    (∀ t ∈ generated_tests now u1,
      t.column_name ≠ "decimal_type" ∧ t.column_name ≠ "inet_type") := by
  refine ⟨fun v => rfl, fun v => rfl, rfl, rfl, ?_⟩
  intro t ht
  have hall : (generated_tests now u1).all
      (fun t => t.column_name != "decimal_type" && t.column_name != "inet_type") =
      true := rfl
  have h := List.all_eq_true.mp hall t ht
  simp only [Bool.and_eq_true, bne_iff_ne, ne_eq] at h
  exact h

/-- Witness for C4 at the first generated test. -/
theorem C4_unsupported_fail_fast_witness :
    (make_test_method "ascii"
        ⟨Value.scalar (.str "abcdefg"), Value.scalar (.str "abcdefg"), true⟩).column_name ≠
      "decimal_type" := by
  exact ((C4_unsupported_fail_fast ⟨2020, 1, 1, 0, 0, 0, 0⟩ 0).2.2.2.2
    (make_test_method "ascii"
      ⟨Value.scalar (.str "abcdefg"), Value.scalar (.str "abcdefg"), true⟩)
    (by decide)).1

/-- C5: an insert targeting the counter column always takes the
increment-by-delta UPDATE form, never an absolute assignment; an insert
targeting any non-counter, non-set column takes the absolute INSERT form
binding `:val`; and the generated counter test issues exactly the UPDATE
query against table `test_counter`. -/
theorem C5_counter_increment_only :
    (∀ table_name (v pk : Value),
      (execute_insert table_name "counter_type" v pk).query =
        "UPDATE " ++ table_name ++
          " SET counter_type = counter_type + :val WHERE test_key = :key;") ∧
    (∀ table_name column_name (v pk : Value),
      column_name ≠ "counter_type" → column_name ≠ "set_type" →
      (execute_insert table_name column_name v pk).query =
        "INSERT INTO " ++ table_name ++ " (test_key, " ++ column_name ++
          ") values (:key, :val);") ∧
    (∀ pk, ((make_test_method "counter"
        ⟨Value.scalar (.int 1), Value.scalar (.int 1), true⟩).insert_call pk).query =
      "UPDATE test_counter SET counter_type = counter_type + :val WHERE test_key = :key;") := by
  refine ⟨?_, ?_, fun pk => rfl⟩
  · intro table_name v pk
    simp [execute_insert, String.append_assoc]
  intro table_name column_name v pk h1 h2
  simp only [execute_insert, if_neg h1, if_neg h2]

/-- Witness for C5 at the int column and the counter call. -/
theorem C5_counter_increment_only_witness :
    (execute_insert "test" "int_type" (Value.scalar (.int 5))
        (Value.scalar (.int 42))).query =
      "INSERT INTO " ++ "test" ++ " (test_key, " ++ "int_type" ++
        ") values (:key, :val);" := by
  exact C5_counter_increment_only.2.1 "test" "int_type"
    (Value.scalar (.int 5)) (Value.scalar (.int 42)) (by decide) (by decide)

/-- C6: inserting a set value interpolates its elements directly into the
query text as a brace-enclosed, comma-separated sequence of unquoted
`str(e)` literals, and pops the `val` entry from the bound parameter map,
so the set elements never reach the parameter-binding path; at the
harness's concrete set value the query ends in the literal `{1, 2, 3, 4}`. -/
theorem C6_set_literal_inline (table_name : String) (pk : Value)
    (xs : List Scalar) :
    (execute_insert table_name "set_type" (.set xs) pk).query =
      "INSERT INTO " ++ table_name ++ " (test_key, " ++ "set_type" ++
        ") values (:key, " ++
        ("\x7b" ++ String.intercalate ", " (xs.map pyStr) ++ "\x7d") ++ ");" ∧
    (execute_insert table_name "set_type" (.set xs) pk).params = [("key", pk)] ∧
    (execute_insert table_name "set_type" (.set xs) pk).params.lookup "val" = none ∧
    (execute_insert "test" "set_type"
        (.set [.int 1, .int 2, .int 3, .int 4]) pk).query =
      "INSERT INTO test (test_key, set_type) values (:key, \x7b1, 2, 3, 4\x7d);" := by
  exact ⟨rfl, rfl, rfl, rfl⟩

/-- C7: the int entry inserts 5 expecting 5 back; the insert and select
calls for primary key 42 both run at ConsistencyLevel.ALL; the generated
int test asserts the single-row ResultSet mapping `int_type` to 5; and
every call `execute_insert` or `execute_select` ever builds carries
ConsistencyLevel.ALL. -/
theorem C7_int_roundtrip_at_all (now : PyDateTime) (u1 : Nat) :
    (cql3_types now u1).lookup "int" =
      some ⟨Value.scalar (.int 5), Value.scalar (.int 5), true⟩ ∧
    (execute_insert "test" "int_type" (Value.scalar (.int 5))
        (Value.scalar (.int 42))).consistency = .ALL ∧
    (execute_select "test" "int_type" (Value.scalar (.int 42))).consistency = .ALL ∧
    (make_test_method "int"
        ⟨Value.scalar (.int 5), Value.scalar (.int 5), true⟩).asserted_result =
      [[("int_type", Value.scalar (.int 5))]] ∧
    (∀ table_name column_name (v pk : Value),
      (execute_insert table_name column_name v pk).consistency = .ALL) ∧
    (∀ table_name column_name (pk : Value),
      (execute_select table_name column_name pk).consistency = .ALL) := by
  refine ⟨rfl, rfl, rfl, rfl, ?_, fun _ _ _ => rfl⟩
  intro table_name column_name v pk
  simp only [execute_insert]
  split_ifs <;> rfl

/-- C8: the blob entry inserts the hex string `'6d796b657931'` and expects
back exactly the raw bytes that hex string denotes, namely `'mykey1'`:
the expected value is the hex-decoding of the inserted representation. -/
theorem C8_blob_hex (now : PyDateTime) (u1 : Nat) :
    (cql3_types now u1).lookup "blob" =
      some ⟨Value.scalar (.str "6d796b657931"), Value.scalar (.str "mykey1"), true⟩ ∧
    hex_decode "6d796b657931" = "mykey1" ∧
    (make_test_method "blob"
        ⟨Value.scalar (.str "6d796b657931"), Value.scalar (.str "mykey1"), true⟩).asserted_result =
      [[("blob_type", Value.scalar (.str (hex_decode "6d796b657931")))]] := by
  exact ⟨rfl, rfl, rfl⟩

/-- C9: module-level initialisation builds the single shared client only
when the CASSANDRA_ENDPOINT environment variable is present and non-empty;
when the variable is unset, no client is built and the class-level skip
marker (which skips every test of UnmarshallingTestCase) is set; whenever
a client exists it is the one client built by `set_up_cassandra`. -/
theorem C9_module_gate :
    module_init none =
      ⟨none, some "No Cassandra endpoint provided."⟩ ∧
    (∀ e : String, e ≠ "" →
      module_init (some e) =
        ⟨some (set_up_cassandra e "test_marshalling"), none⟩) ∧
    (∀ env, ((module_init env).client).isSome →
      ∃ e, env = some e ∧ e ≠ "" ∧
        (module_init env).client = some (set_up_cassandra e "test_marshalling")) ∧
    (∀ env, (module_init env).client = none → (module_init env).skip =
      some "No Cassandra endpoint provided.") := by
  refine ⟨rfl, ?_, ?_, ?_⟩
  · intro e he
    simp [module_init, he]
  · intro env h
    match env with
    | none => simp [module_init] at h
    | some e =>
        by_cases he : e = ""
        · simp [module_init, he] at h
        · exact ⟨e, rfl, he, by simp [module_init, he]⟩
  · intro env h
    match env with
    | none => rfl
    | some e =>
        by_cases he : e = ""
        · simp [module_init, he]
        · simp [module_init, he] at h

/-- Witness for C9 at a concrete endpoint string. -/
theorem C9_module_gate_witness :
    module_init (some "localhost:9160") =
      ⟨some (set_up_cassandra "localhost:9160" "test_marshalling"), none⟩ := by
  exact C9_module_gate.2.1 "localhost:9160" (by decide)

/-- C10: table `test` is created with one `<shortname>_type` column per
key of the type table except `counter` and carries no counter column;
table `test_counter` holds exactly the primary key and the counter column;
the generated counter test is routed to `test_counter` while the test for
any other type name is routed to `test`. -/
theorem C10_counter_isolation :
    "counter_type" ∉ test_table_columns ∧
    (∀ k ∈ cql3_type_keys, k ≠ "counter" →
      (short_name k ++ "_type") ∈ test_table_columns) ∧
    test_table_columns =
      "test_key" ::
        ((cql3_type_keys.filter (fun k => k ≠ "counter")).map
          (fun k => short_name k ++ "_type")) ∧
    test_counter_table_columns = ["test_key", "counter_type"] ∧
    (∀ e : TypeEntry, (make_test_method "counter" e).table_name = "test_counter") ∧
    (∀ t (e : TypeEntry), t ≠ "counter" →
      (make_test_method t e).table_name = "test") := by
  refine ⟨by decide, ?_, rfl, rfl, fun e => rfl, ?_⟩
  · intro k hk hne
    fin_cases hk <;> first | exact absurd rfl hne | decide
  · intro t e ht
    simp [make_test_method, ht]

/-- Witness for C10 at the `int` and `counter` type names. -/
theorem C10_counter_isolation_witness :
    (short_name "int" ++ "_type") ∈ test_table_columns ∧
    (make_test_method "bigint"
        ⟨Value.scalar (.int 1), Value.scalar (.int 1), true⟩).table_name = "test" := by
  exact ⟨C10_counter_isolation.2.1 "int" (by decide) (by decide),
    C10_counter_isolation.2.2.2.2.2 "bigint"
      ⟨Value.scalar (.int 1), Value.scalar (.int 1), true⟩ (by decide)⟩

end Silverberg
